import Mathlib

/-!
Verification of the europatch patch-idea generation engine.

The definitions below are a shallow embedding of the two Python sources
`src/backend/src/patch_generator.py` (namespace `Backend`, the
database-integrated generator) and `src/patch_generator.py` (namespace
`Mock`, the catalog-mock generator).  Python's unseeded `random` module is
modelled by an explicit oracle: a list of natural numbers consumed one draw
at a time (`draw`), where `random.choice(l)` becomes indexing by the draw
modulo the list length (`rchoice`) and `random.randint(2,5)` becomes
`2 + draw % 4`.  Floating point arithmetic on control ranges is modelled
over `ℚ`.  Database tables are passed in as explicit lists.
-/

/-- Python `str.lower()` (ASCII, which covers all strings in the program). -/
def lowerStr (s : String) : String :=
  String.mk (s.data.map Char.toLower)

/-- Whether the first character list is an initial segment of the second. -/
def startsWithChars : List Char → List Char → Bool
  | [], _ => true
  | _ :: _, [] => false
  | a :: as, b :: bs => a = b && startsWithChars as bs

/-- Whether the first character list occurs contiguously inside the second. -/
def infixOfChars (needle : List Char) : List Char → Bool
  | [] => needle.isEmpty
  | c :: cs => startsWithChars needle (c :: cs) || infixOfChars needle cs

/-- Python's substring test `needle in hay`. -/
def strContains (hay needle : String) : Bool :=
  infixOfChars needle.data hay.data

/-- One step of Python `str.split()` tokenization over characters, with an
accumulator of the (reversed) current token. -/
def tokensAux : List Char → List Char → List String
  | [], acc => if acc.isEmpty then [] else [String.mk acc.reverse]
  | c :: cs, acc =>
    if c.isWhitespace then
      (if acc.isEmpty then [] else [String.mk acc.reverse]) ++ tokensAux cs []
    else tokensAux cs (c :: acc)

/-- Python `str.split()` with no argument: split on whitespace runs, dropping empties. -/
def pyTokens (s : String) : List String :=
  tokensAux s.data []

/-- If `sep` is an initial segment of `l`, return the remainder of `l`. -/
def dropAfter : List Char → List Char → Option (List Char)
  | [], l => some l
  | _ :: _, [] => none
  | a :: as, b :: bs => if a = b then dropAfter as bs else none

/-- Fuel-driven worker for Python `str.split(sep)`; the fuel always suffices
because each step consumes at least one character. -/
def splitOnAux (sep : List Char) : Nat → List Char → List Char → List (List Char)
  | 0, _, acc => [acc.reverse]
  | _ + 1, [], acc => [acc.reverse]
  | fuel + 1, c :: cs, acc =>
    match dropAfter sep (c :: cs) with
    | some rest => acc.reverse :: splitOnAux sep fuel rest []
    | none => splitOnAux sep fuel cs (c :: acc)

/-- Python `str.split(sep)` for a non-empty separator. -/
def pySplitOn (s sep : String) : List String :=
  (splitOnAux sep.data (s.data.length + 1) s.data []).map String.mk

/-- Python `str.strip()`: drop leading and trailing whitespace. -/
def pyStrip (s : String) : String :=
  String.mk (((s.data.dropWhile Char.isWhitespace).reverse.dropWhile Char.isWhitespace).reverse)

/-- Python `str.capitalize()`: first character upper-cased, the rest lower-cased. -/
def pyCapitalize (s : String) : String :=
  match s.data with
  | [] => ""
  | c :: cs => String.mk (c.toUpper :: cs.map Char.toLower)

/-- Python comma-space string joining of a list of strings. -/
def joinComma : List String → String
  | [] => ""
  | [s] => s
  | s :: rest => s ++ ", " ++ joinComma rest

/-- Python `max` over a list of naturals (no seed; `max([])` is an error,
modelled as `0`, but every call site guarantees a non-empty list). -/
def pymax : List Nat → Nat
  | [] => 0
  | x :: xs => xs.foldl max x

/-- Draw the next value from the randomness oracle (default `0` when the
oracle is exhausted, so every finite list denotes an infinite draw stream). -/
def draw (o : List Nat) : Nat × List Nat :=
  (o.headD 0, o.tail)

/-- Model of `random.choice l` given one oracle draw `n`: index `n % l.length`.
The default `d` is only reachable when `l = []`, where Python would raise. -/
def rchoice {α : Type} (l : List α) (d : α) (n : Nat) : α :=
  l.getD (n % l.length) d

/-- Append a value under key `k` in an insertion-ordered association list,
mirroring one step of the Python idiom
`if k not in d: d[k] = []` followed by `d[k].append(a)`. -/
def addBucket {α : Type} : List (String × List α) → String → α → List (String × List α)
  | [], k, a => [(k, [a])]
  | (k', vs) :: rest, k, a =>
    if k' = k then (k', vs ++ [a]) :: rest else (k', vs) :: addBucket rest k a

/-- Build the insertion-ordered dictionary grouping `xs` by `key`, exactly as
the Python loops build `module_types`. -/
def buildBuckets {α : Type} (key : α → String) (xs : List α) : List (String × List α) :=
  xs.foldl (fun bs x => addBucket bs (key x) x) []

/-- The bucket stored under key `k` (empty when the key is absent). -/
def bucketVal {α : Type} : List (String × List α) → String → List α
  | [], _ => []
  | (k', vs) :: rest, k => if k' = k then vs else bucketVal rest k

/-- One step of `if p in d: out.extend(d[p])` over the association list `bs`. -/
def lookupExtend {α : Type} (bs : List (String × List α)) (acc : List α) (p : String) : List α :=
  match bs.find? (fun kv => kv.1 = p) with
  | some kv => acc ++ kv.2
  | none => acc

instance {ε α : Type} [DecidableEq ε] [DecidableEq α] : DecidableEq (Except ε α) := fun x y =>
  match x, y with
  | .ok a, .ok b =>
    if h : a = b then .isTrue (h ▸ rfl) else .isFalse (fun hh => h (Except.ok.inj hh))
  | .error a, .error b =>
    if h : a = b then .isTrue (h ▸ rfl) else .isFalse (fun hh => h (Except.error.inj hh))
  | .ok _, .error _ => .isFalse (fun hh => Except.noConfusion hh)
  | .error _, .ok _ => .isFalse (fun hh => Except.noConfusion hh)

namespace Backend

/-- A row of the `modules` table, as read by the generator: `module_type`
may be `NULL` (Python `None`), and Python treats the empty string as falsy
in `module.module_type.lower() if module.module_type else "unknown"`. -/
structure Module where
  id : Nat
  name : String
  moduleType : Option String
deriving DecidableEq, Repr

/-- A row of the `module_connections` table. -/
structure ModuleConnection where
  id : Nat
  module_id : Nat
  connection_type : String
  name : String
deriving DecidableEq, Repr

/-- A row of the `module_controls` table; the numeric range is modelled over ℚ. -/
structure ModuleControl where
  id : Nat
  module_id : Nat
  control_name : String
  min_value : ℚ
  max_value : ℚ
deriving DecidableEq, Repr

/-- One entry of the `module_roles` dictionary. -/
structure Role where
  role : String
  importance : Nat
deriving DecidableEq, Repr

/-- One connection dictionary as appended to `connections` in
`_generate_connections`. -/
structure Conn where
  source_module_id : Nat
  source_connection_id : Nat
  target_module_id : Nat
  target_connection_id : Nat
  cable_color : String
  description : String
  importance : Nat
deriving DecidableEq, Repr

/-- One control-setting dictionary as appended in `_generate_control_settings`. -/
structure Setting where
  module_id : Nat
  control_id : Nat
  value_numeric : Option ℚ
  value_text : String
  description : String
  importance : Nat
deriving DecidableEq, Repr

/-- `module.module_type.lower() if module.module_type else "unknown"`:
both `None` and the empty string fall back to `"unknown"`. -/
def typeLower (m : Module) : String :=
  match m.moduleType with
  | some t => if t = "" then "unknown" else lowerStr t
  | none => "unknown"

/-- Keys of `self.patch_types`, in dictionary (insertion) order. -/
def patchTypeNames : List String :=
  ["ambient", "generative", "percussion", "bass", "lead", "drone"]

/-- The `description` field of each `self.patch_types` entry. -/
def patchTypeDescription (pt : String) : Option String :=
  (([
    ("ambient", "Evolving, atmospheric sounds with slow modulation"),
    ("generative", "Self-evolving patches with random elements"),
    ("percussion", "Rhythmic sounds and drum-like patches"),
    ("bass", "Low frequency sounds with punch and presence"),
    ("lead", "Expressive melodic sounds"),
    ("drone", "Sustained, evolving textures")] :
    List (String × String)).find? (fun kv => kv.1 = pt)).map (fun kv => kv.2)

/-- The `connection_patterns` field of each `self.patch_types` entry;
`none` models the `KeyError` raised on a missing key. -/
def connectionPatterns (pt : String) : Option (List String) :=
  (([
    ("ambient", ["oscillator -> filter -> reverb",
                 "lfo -> oscillator parameters",
                 "noise -> reverb"]),
    ("generative", ["random -> quantizer -> oscillator pitch",
                    "clock -> sequencer -> trigger inputs",
                    "sequencer -> filter cutoff"]),
    ("percussion", ["noise -> filter -> vca",
                    "envelope -> vca",
                    "clock -> envelope trigger"]),
    ("bass", ["oscillator -> filter -> vca",
              "envelope -> filter cutoff",
              "envelope -> vca"]),
    ("lead", ["oscillator -> filter -> vca -> delay",
              "envelope -> filter cutoff",
              "lfo -> oscillator pitch (vibrato)"]),
    ("drone", ["oscillator -> filter -> reverb -> delay",
               "lfo -> filter cutoff",
               "lfo -> oscillator parameters"])] :
    List (String × List String)).find? (fun kv => kv.1 = pt)).map (fun kv => kv.2)

/-- The `keywords` table of `_determine_patch_type`, in dictionary order. -/
def keywordTable : List (String × List String) :=
  [("ambient", ["ambient", "atmospheric", "pad", "texture", "drone", "evolving", "spacey", "ethereal"]),
   ("generative", ["generative", "random", "evolving", "self-playing", "algorithmic", "chance", "probability"]),
   ("percussion", ["percussion", "drum", "kick", "snare", "hat", "rhythmic", "beat"]),
   ("bass", ["bass", "low", "sub", "808", "acid", "deep"]),
   ("lead", ["lead", "melody", "solo", "arpeggio", "sequence", "pluck"]),
   ("drone", ["drone", "sustained", "continuous", "dark", "rumble", "noise"])]

/-- `_determine_patch_type`: return the first patch-type name occurring in the
lowercased prompt; otherwise score each type by the number of its keywords
present and pick uniformly at random (one oracle draw) among the maximal
scorers; default to `"ambient"` when every score is zero. -/
def determinePatchType (prompt : String) (o : List Nat) : String × List Nat :=
  let promptLower := lowerStr prompt
  match patchTypeNames.find? (fun n => strContains promptLower n) with
  | some n => (n, o)
  | none =>
    let counts := keywordTable.map
      (fun kv => (kv.1, (kv.2.filter (fun k => strContains promptLower k)).length))
    let maxCount := pymax (counts.map (fun c => c.2))
    if maxCount > 0 then
      let maxTypes := (counts.filter (fun c => c.2 = maxCount)).map (fun c => c.1)
      let (n, o') := draw o
      (rchoice maxTypes "ambient" n, o')
    else ("ambient", o)

/-- The `module_type_roles` table of `_determine_module_roles`, in dictionary order. -/
def moduleTypeRoles : List (String × List String) :=
  [("oscillator", ["sound source", "modulation source", "carrier", "modulator"]),
   ("filter", ["sound processor", "tone shaper", "resonator"]),
   ("envelope", ["modulation source", "amplitude shaper", "transient generator"]),
   ("lfo", ["modulation source", "rhythm generator"]),
   ("vca", ["amplitude controller", "modulation controller"]),
   ("reverb", ["space processor", "ambience generator"]),
   ("delay", ["time processor", "echo generator"]),
   ("sequencer", ["pattern generator", "rhythm controller", "melody generator"]),
   ("clock", ["timing source", "trigger generator"]),
   ("random", ["chance generator", "unpredictability source"]),
   ("quantizer", ["pitch controller", "scale enforcer"]),
   ("mixer", ["signal combiner", "balance controller"]),
   ("function", ["modulation source", "signal processor", "envelope generator"]),
   ("granular", ["texture generator", "sound mangler"]),
   ("resonator", ["tone generator", "harmonic enhancer"])]

/-- The role assigned to one module by `_determine_module_roles`: the
archetype-specific special cases take a fixed role with importance 5; other
matched types draw one candidate role at random (importance 3); unmatched
types get `"utility"` with importance 2. -/
def roleForModule (patchType : String) (m : Module) (o : List Nat) : Role × List Nat :=
  let moduleTypeLower := typeLower m
  match moduleTypeRoles.find? (fun kv => strContains moduleTypeLower kv.1) with
  | none => (⟨"utility", 2⟩, o)
  | some (matchingType, possibleRoles) =>
    if patchType = "ambient" ∧ matchingType ∈ ["reverb", "delay", "granular"] then
      (⟨"ambience generator", 5⟩, o)
    else if patchType = "generative" ∧ matchingType ∈ ["random", "sequencer", "clock"] then
      (⟨"pattern generator", 5⟩, o)
    else if patchType = "percussion" ∧ matchingType ∈ ["envelope", "noise", "filter"] then
      (⟨"percussion generator", 5⟩, o)
    else if patchType = "bass" ∧ matchingType ∈ ["oscillator", "filter"] then
      (⟨"bass generator", 5⟩, o)
    else if patchType = "lead" ∧ matchingType ∈ ["oscillator", "filter", "envelope"] then
      (⟨"lead voice", 5⟩, o)
    else if patchType = "drone" ∧ matchingType ∈ ["oscillator", "filter", "reverb"] then
      (⟨"drone generator", 5⟩, o)
    else
      let (n, o') := draw o
      (⟨rchoice possibleRoles "" n, 3⟩, o')

/-- Insert-or-replace into the `module_roles` dictionary keyed by module id. -/
def dictInsert : List (Nat × Role) → Nat → Role → List (Nat × Role)
  | [], k, v => [(k, v)]
  | (k', v') :: rest, k, v =>
    if k' = k then (k', v) :: rest else (k', v') :: dictInsert rest k v

/-- `_determine_module_roles`: assign every module a role for this call. -/
def determineModuleRoles (modules : List Module) (patchType : String) (o : List Nat) :
    List (Nat × Role) × List Nat :=
  modules.foldl
    (fun st m =>
      let (r, o') := roleForModule patchType m st.2
      (dictInsert st.1 m.id r, o'))
    ([], o)

/-- `module_roles.get(id, {}).get("importance", 3)`. -/
def roleImp (roles : List (Nat × Role)) (mid : Nat) : Nat :=
  match roles.find? (fun kv => kv.1 = mid) with
  | some kv => kv.2.importance
  | none => 3

/-- `_generate_title_description`: all four title templates and all three
description templates are built eagerly (each consuming its `random.choice`
draws left to right, exactly as the Python f-strings evaluate), then one of
each is chosen at random. -/
def generateTitleDescription (modules : List Module) (patchType prompt : String)
    (o : List Nat) : (String × String) × List Nat :=
  let moduleNames := modules.map (fun m => m.name)
  let (a1, o) := draw o
  let w1 := rchoice ["Adventure", "Journey", "Exploration"] "" a1
  let (a2, o) := draw o
  let n1 := rchoice moduleNames "" a2
  let t1 := pyCapitalize patchType ++ " " ++ w1 ++ " with " ++ n1
  let (a3, o) := draw o
  let n2 := rchoice moduleNames "" a3
  let (a4, o) := draw o
  let w2 := rchoice ["Textures", "Soundscape", "Experience"] "" a4
  let t2 := n2 ++ " " ++ pyCapitalize patchType ++ " " ++ w2
  let (a5, o) := draw o
  let w3 := rchoice ["Patch", "System", "Network"] "" a5
  let (a6, o) := draw o
  let n3 := rchoice moduleNames "" a6
  let t3 := pyCapitalize patchType ++ " " ++ w3 ++ " using " ++ n3
  let (a7, o) := draw o
  let w4 := rchoice ["Evolving", "Dynamic", "Expressive"] "" a7
  let (a8, o) := draw o
  let n4 := rchoice moduleNames "" a8
  let t4 := w4 ++ " " ++ pyCapitalize patchType ++ " with " ++ n4
  let (a9, o) := draw o
  let title := rchoice [t1, t2, t3, t4] "" a9
  let (b1, o) := draw o
  let d1 := "A " ++ patchType ++ " patch that utilizes " ++ joinComma (moduleNames.take 3)
    ++ " to create " ++ rchoice ["evolving", "dynamic", "expressive"] "" b1
    ++ " sounds. " ++ ((patchTypeDescription patchType).getD "") ++ "."
  let (b2, o) := draw o
  let d2 := "This " ++ patchType ++ " patch focuses on "
    ++ rchoice ["texture", "rhythm", "melody", "timbre"] "" b2
    ++ " using " ++ joinComma (moduleNames.take 2) ++ " as the core modules. " ++ prompt
  let (b3, o) := draw o
  let d3 := "An exploration of " ++ patchType ++ " sounds using "
    ++ joinComma (moduleNames.take 3) ++ ". This patch is designed to create "
    ++ rchoice ["evolving", "dynamic", "expressive"] "" b3 ++ " " ++ patchType ++ " textures."
  let (b4, o) := draw o
  let description := rchoice [d1, d2, d3] "" b4
  ((title, description), o)

/-- Default element for `rchoice` over connection lists (unreachable at guarded call sites). -/
def defaultMC : ModuleConnection := ⟨0, 0, "", ""⟩

/-- The palette used by the cable-color fallback and by the fallback pass. -/
def cableColorsList : List String :=
  ["red", "blue", "yellow", "green", "orange", "purple", "black", "white"]

/-- The `ModuleConnection.query.filter_by(module_id=mid, connection_type="output")` rows. -/
def outputsOf (db : List ModuleConnection) (mid : Nat) : List ModuleConnection :=
  db.filter (fun c => c.module_id = mid ∧ c.connection_type = "output")

/-- The `ModuleConnection.query.filter_by(module_id=mid, connection_type="input")` rows. -/
def inputsOf (db : List ModuleConnection) (mid : Nat) : List ModuleConnection :=
  db.filter (fun c => c.module_id = mid ∧ c.connection_type = "input")

/-- The pattern-based description text of `_generate_connections`. -/
def connDescription (patchType sourceType targetType : String) (sm tm : Module) : String :=
  if strContains targetType "pitch" then
    "Modulate the pitch of " ++ tm.name ++ " with " ++ sm.name
  else if strContains targetType "filter" then
    "Process " ++ sm.name ++ " through the filter of " ++ tm.name
  else if strContains targetType "reverb" || strContains targetType "delay" then
    "Add space to " ++ sm.name ++ " using " ++ tm.name
  else if strContains sourceType "envelope" && strContains targetType "vca" then
    "Shape the amplitude of " ++ tm.name ++ " with " ++ sm.name
  else if strContains sourceType "clock" || strContains targetType "trigger" then
    "Trigger " ++ tm.name ++ " with " ++ sm.name
  else
    "Connect " ++ sm.name ++ " to " ++ tm.name ++ " for " ++ patchType ++ " sounds"

/-- The body of the template pass's inner double loop of `_generate_connections`,
for one candidate `(source, target)` pair: skip same-id pairs and pairs
lacking output/input jacks, otherwise pick one jack on each side at random
and emit a connection whose cable color follows the fixed precedence
(pitch → blue, gate/trigger → orange, clock source → purple, source jack
named audio/out → black, otherwise a random palette color). -/
def processPair (db : List ModuleConnection) (roles : List (Nat × Role))
    (patchType sourceType targetType : String)
    (st : List Conn × List Nat) (p : Module × Module) : List Conn × List Nat :=
  let (acc, o) := st
  let (sm, tm) := p
  if sm.id = tm.id then (acc, o)
  else
    let sourceConnections := outputsOf db sm.id
    let targetConnections := inputsOf db tm.id
    if sourceConnections.isEmpty || targetConnections.isEmpty then (acc, o)
    else
      let (n1, o) := draw o
      let sc := rchoice sourceConnections defaultMC n1
      let (n2, o) := draw o
      let tc := rchoice targetConnections defaultMC n2
      let description := connDescription patchType sourceType targetType sm tm
      let importance := max (roleImp roles sm.id) (roleImp roles tm.id)
      let colorAndOracle : String × List Nat :=
        if strContains targetType "pitch" then ("blue", o)
        else if strContains targetType "gate" || strContains targetType "trigger" then ("orange", o)
        else if strContains sourceType "clock" then ("purple", o)
        else if strContains (lowerStr sc.name) "audio" || strContains (lowerStr sc.name) "out" then
          ("black", o)
        else
          let (n3, o') := draw o
          (rchoice cableColorsList "" n3, o')
      (acc ++ [⟨sm.id, sc.id, tm.id, tc.id, colorAndOracle.1, description, importance⟩],
       colorAndOracle.2)

/-- The nested `for source in sources[:2]: for target in targets[:2]:` pair order. -/
def pairList (ss ts : List Module) : List (Module × Module) :=
  ss.flatMap (fun s => ts.map (fun t => (s, t)))

/-- The template pass of `_generate_connections` for one wiring pattern:
split on `"->"`, take the stripped first and last phrases, gather the
type buckets containing any whitespace token of each phrase, and run the
capped double loop over candidate pairs. -/
def processPattern (db : List ModuleConnection) (roles : List (Nat × Role))
    (patchType : String) (buckets : List (String × List Module))
    (st : List Conn × List Nat) (pattern : String) : List Conn × List Nat :=
  let parts := pySplitOn pattern "->"
  if parts.length < 2 then st
  else
    let sourceType := pyStrip (parts.headD "")
    let targetType := pyStrip (parts.getLastD "")
    let sourceModules := buckets.foldl
      (fun acc kv => if (pyTokens sourceType).any (fun t => strContains kv.1 t) then acc ++ kv.2 else acc) []
    let targetModules := buckets.foldl
      (fun acc kv => if (pyTokens targetType).any (fun t => strContains kv.1 t) then acc ++ kv.2 else acc) []
    if sourceModules.isEmpty || targetModules.isEmpty then st
    else
      (pairList (sourceModules.take 2) (targetModules.take 2)).foldl
        (processPair db roles patchType sourceType targetType) st

/-- Default element for `rchoice` over `(module, jacks)` pairs. -/
def defaultPair : Module × List ModuleConnection := (⟨0, "", none⟩, [])

/-- The fallback pass of `_generate_connections`: `min 5 (|outputs|*|inputs|)`
random attempts, each either skipped (same module, or duplicate
source/target tuple) or appended with a random palette color and importance 3. -/
def fallbackLoop (patchType : String)
    (outputModules inputModules : List (Module × List ModuleConnection)) :
    Nat → List Conn → List Nat → List Conn × List Nat
  | 0, acc, o => (acc, o)
  | fuel + 1, acc, o =>
    if outputModules.isEmpty || inputModules.isEmpty then (acc, o)
    else
      let (n1, o) := draw o
      let sp := rchoice outputModules defaultPair n1
      let (n2, o) := draw o
      let tp := rchoice inputModules defaultPair n2
      if sp.1.id = tp.1.id then fallbackLoop patchType outputModules inputModules fuel acc o
      else
        let (n3, o) := draw o
        let sc := rchoice sp.2 defaultMC n3
        let (n4, o) := draw o
        let tc := rchoice tp.2 defaultMC n4
        if acc.any (fun c =>
            c.source_module_id = sp.1.id ∧ c.source_connection_id = sc.id ∧
            c.target_module_id = tp.1.id ∧ c.target_connection_id = tc.id) then
          fallbackLoop patchType outputModules inputModules fuel acc o
        else
          let (n5, o) := draw o
          let cableColor := rchoice cableColorsList "" n5
          let description := "Connect " ++ sp.1.name ++ " to " ++ tp.1.name
            ++ " for interesting " ++ patchType ++ " sounds"
          fallbackLoop patchType outputModules inputModules fuel
            (acc ++ [⟨sp.1.id, sc.id, tp.1.id, tc.id, cableColor, description, 3⟩]) o

/-- `_generate_connections`: group modules by lowercased type, run the
template pass over the archetype's connection patterns, and when fewer than
3 connections resulted run the random fallback pass.  `none` models the
`KeyError` on a patch type missing from `self.patch_types`. -/
def generateConnections (db : List ModuleConnection) (modules : List Module)
    (roles : List (Nat × Role)) (patchType : String) (o : List Nat) :
    Option (List Conn × List Nat) :=
  match connectionPatterns patchType with
  | none => none
  | some patterns =>
    let buckets := buildBuckets typeLower modules
    let st := patterns.foldl (processPattern db roles patchType buckets) ([], o)
    if st.1.length < 3 then
      let outputModules := modules.filterMap (fun m =>
        let outs := outputsOf db m.id
        if outs.isEmpty then none else some (m, outs))
      let inputModules := modules.filterMap (fun m =>
        let ins := inputsOf db m.id
        if ins.isEmpty then none else some (m, ins))
      some (fallbackLoop patchType outputModules inputModules
        (min 5 (outputModules.length * inputModules.length)) st.1 st.2)
    else some st

/-- The `control_patterns` table of `_generate_control_settings`; `none`
models the `KeyError` on a missing patch type. -/
def controlPatterns (pt : String) : Option (List (String × List (String × String))) :=
  (([
    ("ambient",
      [("filter", [("cutoff", "low"), ("resonance", "medium")]),
       ("reverb", [("decay", "high"), ("mix", "high")]),
       ("delay", [("time", "high"), ("feedback", "medium")]),
       ("lfo", [("rate", "low"), ("depth", "high")])]),
    ("generative",
      [("random", [("density", "medium"), ("range", "high")]),
       ("quantizer", [("scale", "pentatonic"), ("root", "C")]),
       ("sequencer", [("length", "medium"), ("variation", "high")]),
       ("clock", [("tempo", "medium"), ("swing", "low")])]),
    ("percussion",
      [("envelope", [("attack", "low"), ("decay", "low"), ("sustain", "low"), ("release", "medium")]),
       ("filter", [("cutoff", "medium"), ("resonance", "high")]),
       ("vca", [("gain", "medium"), ("response", "fast")])]),
    ("bass",
      [("oscillator", [("waveform", "saw"), ("detune", "low")]),
       ("filter", [("cutoff", "low"), ("resonance", "medium")]),
       ("envelope", [("attack", "low"), ("decay", "medium"), ("sustain", "medium"), ("release", "medium")])]),
    ("lead",
      [("oscillator", [("waveform", "square"), ("detune", "medium")]),
       ("filter", [("cutoff", "high"), ("resonance", "medium")]),
       ("envelope", [("attack", "low"), ("decay", "medium"), ("sustain", "medium"), ("release", "low")])]),
    ("drone",
      [("oscillator", [("waveform", "sine"), ("detune", "low")]),
       ("filter", [("cutoff", "medium"), ("resonance", "low")]),
       ("reverb", [("decay", "high"), ("mix", "high")]),
       ("lfo", [("rate", "very low"), ("depth", "medium")])])] :
    List (String × List (String × List (String × String)))).find?
      (fun kv => kv.1 = pt)).map (fun kv => kv.2)

/-- The qualitative-to-numeric translation of `_generate_control_settings`
for one value string and one control, as the Python if/elif chain:
fixed fractions of the `[min, max]` range, or a text-only value. -/
def valueNumericText (control : ModuleControl) (value : String) : Option ℚ × String :=
  if value = "low" then
    (some (control.min_value + (control.max_value - control.min_value) * (25 / 100)), "Low (25%)")
  else if value = "medium" then
    (some (control.min_value + (control.max_value - control.min_value) * (50 / 100)), "Medium (50%)")
  else if value = "high" then
    (some (control.min_value + (control.max_value - control.min_value) * (75 / 100)), "High (75%)")
  else if value = "very low" then
    (some (control.min_value + (control.max_value - control.min_value) * (10 / 100)), "Very low (10%)")
  else if value = "very high" then
    (some (control.min_value + (control.max_value - control.min_value) * (90 / 100)), "Very high (90%)")
  else if value ∈ ["saw", "square", "sine", "triangle"] then (none, pyCapitalize value)
  else if value ∈ ["pentatonic", "major", "minor", "chromatic"] then (none, pyCapitalize value)
  else if value ∈ ["C", "D", "E", "F", "G", "A", "B"] then (none, value)
  else if value = "fast" then
    (some (control.min_value + (control.max_value - control.min_value) * (80 / 100)), "Fast response")
  else
    (some (control.min_value + (control.max_value - control.min_value) * (50 / 100)), value)

/-- The per-keyword description chain of `_generate_control_settings`. -/
def settingDescription (patchType controlName value : String) : String :=
  let controlNameLower := lowerStr controlName
  if strContains controlNameLower "cutoff" then
    if value = "low" then "Set " ++ controlName ++ " low for a dark, filtered sound"
    else if value = "high" then "Set " ++ controlName ++ " high for a bright, open sound"
    else "Set " ++ controlName ++ " to " ++ value ++ " for balanced filtering"
  else if strContains controlNameLower "resonance" then
    if value = "high" then "Increase " ++ controlName ++ " for an emphasized filter character"
    else "Set " ++ controlName ++ " to " ++ value ++ " for subtle filtering"
  else if strContains controlNameLower "decay" || strContains controlNameLower "release" then
    if value = "high" then "Long " ++ controlName ++ " creates spacious, evolving sounds"
    else "Set " ++ controlName ++ " to " ++ value ++ " for appropriate decay time"
  else if strContains controlNameLower "attack" then
    if value = "low" then "Quick " ++ controlName ++ " for immediate response"
    else "Set " ++ controlName ++ " to " ++ value ++ " for gradual onset"
  else if strContains controlNameLower "rate" then
    if value = "low" ∨ value = "very low" then
      "Slow " ++ controlName ++ " for subtle, evolving modulation"
    else "Set " ++ controlName ++ " to " ++ value ++ " for appropriate modulation speed"
  else
    "Set " ++ controlName ++ " to " ++ value ++ " for optimal " ++ patchType ++ " sound"

/-- The setting produced for one control (or `none` when no pattern key is a
substring of the control name). -/
def settingFor (patchType : String) (imp : Nat) (m : Module)
    (pattern : List (String × String)) (control : ModuleControl) : Option Setting :=
  let controlNameLower := lowerStr control.control_name
  match pattern.find? (fun kv => strContains controlNameLower kv.1) with
  | none => none
  | some kv =>
    let vnt := valueNumericText control kv.2
    some ⟨m.id, control.id, vnt.1, vnt.2,
      settingDescription patchType control.control_name kv.2, imp⟩

/-- `_generate_control_settings`: for each module, find the first matching
module-type key of the archetype's control patterns (skipping modules with
none, and modules without controls), then emit one setting per control whose
name contains a pattern key. -/
def generateControlSettings (controlsDb : List ModuleControl) (modules : List Module)
    (roles : List (Nat × Role)) (patchType : String) : Option (List Setting) :=
  match controlPatterns patchType with
  | none => none
  | some cps =>
    some (modules.foldl
      (fun acc m =>
        let moduleTypeLower := typeLower m
        match cps.find? (fun kv => strContains moduleTypeLower kv.1) with
        | none => acc
        | some kv =>
          let controls := controlsDb.filter (fun c => c.module_id = m.id)
          if controls.isEmpty then acc
          else
            controls.foldl
              (fun acc2 control =>
                match settingFor patchType (roleImp roles m.id) m kv.2 control with
                | none => acc2
                | some s => acc2 ++ [s])
              acc)
      [])

/-- One record written to the `patch_ideas` table. -/
structure PatchIdeaRec where
  title : String
  description : String
  patch_type : String
  complexity : Nat
  source_type : String
  source_text : String
deriving DecidableEq, Repr

/-- One record written to the `patch_modules` table. -/
structure PatchModuleRec where
  patch_id : Nat
  module_id : Nat
  importance : Nat
deriving DecidableEq, Repr

/-- One record written to the `patch_connections` table. -/
structure PatchConnectionRec where
  patch_id : Nat
  source_module_id : Nat
  source_connection_id : Nat
  target_module_id : Nat
  target_connection_id : Nat
  cable_color : String
  description : String
  importance : Nat
deriving DecidableEq, Repr

/-- One record written to the `patch_control_settings` table. -/
structure PatchControlRec where
  patch_id : Nat
  module_id : Nat
  control_id : Nat
  value_numeric : Option ℚ
  value_text : String
  description : String
  importance : Nat
deriving DecidableEq, Repr

/-- All records committed to the database by one `generate_patch` call. -/
structure Created where
  ideas : List PatchIdeaRec
  patchModules : List PatchModuleRec
  patchConnections : List PatchConnectionRec
  patchControls : List PatchControlRec
deriving DecidableEq, Repr

/-- The database snapshot visible to one generation call. -/
structure Db where
  modules : List Module
  connections : List ModuleConnection
  controls : List ModuleControl
deriving Repr

/-- A caller-supplied module argument: an id (or a dict carrying an id),
resolved through `Module.query.get`, or an object used directly. -/
inductive ModuleRef where
  | byId (i : Nat)
  | inline (m : Module)
deriving DecidableEq, Repr

/-- The module-resolution loop at the top of `generate_patch`: ids that
match no database row are silently dropped. -/
def resolveModules (env : Db) (refs : List ModuleRef) : List Module :=
  refs.foldl
    (fun acc r =>
      match r with
      | .byId i =>
        match env.modules.find? (fun m => m.id = i) with
        | some m => acc ++ [m]
        | none => acc
      | .inline m => acc ++ [m])
    []

/-- An empty write set. -/
def noWrites : Created := ⟨[], [], [], []⟩

/-- `generate_patch`: classify the prompt, resolve modules (raising
`ValueError` when none resolve, before any record is created), generate
title/description, roles, connections, and control settings, then commit one
`PatchIdea` (with `complexity = random.randint(2, 5)`, modelled as
`2 + draw % 4`) plus one `PatchModule` per module, one `PatchConnection` per
synthesized connection, and one `PatchControlSetting` per synthesized
setting.  `newId` stands for the database-assigned patch id.  The trailing
construction of the JSON response dict, which only re-renders these records
with display names, is not modelled. -/
def generatePatch (env : Db) (newId : Nat) (refs : List ModuleRef) (prompt : String)
    (o : List Nat) : Created × Except String Unit :=
  let ptO := determinePatchType prompt o
  let patchType := ptO.1
  let moduleObjects := resolveModules env refs
  if moduleObjects.isEmpty then (noWrites, .error "No valid modules provided")
  else
    let tdO := generateTitleDescription moduleObjects patchType prompt ptO.2
    let rolesO := determineModuleRoles moduleObjects patchType tdO.2
    let moduleRoles := rolesO.1
    match generateConnections env.connections moduleObjects moduleRoles patchType rolesO.2 with
    | none => (noWrites, .error "KeyError")
    | some connsO =>
      match generateControlSettings env.controls moduleObjects moduleRoles patchType with
      | none => (noWrites, .error "KeyError")
      | some controlSettings =>
        let (nC, _) := draw connsO.2
        let idea : PatchIdeaRec :=
          ⟨tdO.1.1, tdO.1.2, patchType, 2 + nC % 4, "generated",
           "Generated based on user prompt: " ++ prompt⟩
        let pmods := moduleObjects.map (fun m =>
          ⟨newId, m.id,
           if (match moduleRoles.find? (fun kv => kv.1 = m.id) with
               | some kv => decide (kv.2.importance > 3)
               | none => false) then 5 else 3⟩)
        let pconns := connsO.1.map (fun c =>
          (⟨newId, c.source_module_id, c.source_connection_id, c.target_module_id,
            c.target_connection_id, c.cable_color, c.description, c.importance⟩ :
            PatchConnectionRec))
        let pctrls := controlSettings.map (fun s =>
          (⟨newId, s.module_id, s.control_id, s.value_numeric, s.value_text,
            s.description, s.importance⟩ : PatchControlRec))
        (⟨[idea], pmods, pconns, pctrls⟩, .ok ())

end Backend

namespace Mock

/-- A module dict of the catalog-mock generator; `module_type` is read with
`module.get('module_type', 'Other')`, so a missing key defaults to `"Other"`. -/
structure MModule where
  id : Nat
  name : String
  moduleType : Option String
deriving DecidableEq, Repr

/-- `module.get('module_type', 'Other')`. -/
def mtype (m : MModule) : String :=
  m.moduleType.getD "Other"

/-- The `priority_types` table of `_find_relevant_modules`, with the
`.get(patch_type, ['VCO', 'VCF', 'VCA', 'Effect'])` default. -/
def priorityTypes (patchType : String) : List String :=
  match (([
    ("ambient", ["VCO", "Effect", "LFO", "VCA", "VCF"]),
    ("generative", ["Sequencer", "LFO", "VCO", "Effect", "VCF"]),
    ("percussion", ["VCO", "Envelope", "VCA", "Effect"]),
    ("bass", ["VCO", "VCF", "VCA", "Envelope"]),
    ("lead", ["VCO", "VCF", "Envelope", "Effect"]),
    ("drone", ["VCO", "Effect", "VCF", "LFO"]),
    ("techno", ["Sequencer", "VCO", "VCF", "Envelope", "Effect"])] :
    List (String × List String)).find? (fun kv => kv.1 = patchType)) with
  | some kv => kv.2
  | none => ["VCO", "VCF", "VCA", "Effect"]

/-- `_find_relevant_modules`: group the modules by type in insertion order,
emit the bucket of each priority type in priority order, then emit the
remaining buckets in dictionary (first-occurrence) order. -/
def findRelevantModules (modules : List MModule) (patchType : String) : List MModule :=
  let moduleTypes := buildBuckets mtype modules
  let currentPriorities := priorityTypes patchType
  let sorted1 := currentPriorities.foldl (lookupExtend moduleTypes) []
  let sorted2 := moduleTypes.foldl
    (fun acc kv => if currentPriorities.contains kv.1 then acc else acc ++ kv.2)
    []
  sorted1 ++ sorted2

end Mock

namespace Backend

/-- The Plaits module of the §8.9 end-to-end scenario. -/
def plaits : Module := ⟨1, "Plaits", some "VCO"⟩

/-- The Clouds module of the §8.9 end-to-end scenario. -/
def clouds : Module := ⟨2, "Clouds", some "Effect"⟩

/-- The two-module set of the §8.9 end-to-end scenario. -/
def scenarioModules : List Module := [plaits, clouds]

/-- The jacks of the §8.9 scenario: Plaits has inputs V/OCT and TRIG and
outputs OUT and AUX; Clouds has input IN and output OUT. -/
def scenarioConnections : List ModuleConnection :=
  [⟨1, 1, "input", "V/OCT"⟩,
   ⟨2, 1, "input", "TRIG"⟩,
   ⟨3, 1, "output", "OUT"⟩,
   ⟨4, 1, "output", "AUX"⟩,
   ⟨5, 2, "input", "IN"⟩,
   ⟨6, 2, "output", "OUT"⟩]

/-- The roles the pipeline computes for the scenario modules (both types
match no role keyword, so both get `utility`/2 without consuming a draw). -/
def scenarioRoles : List (Nat × Role) :=
  (determineModuleRoles scenarioModules "ambient" []).1

/-- A small database snapshot holding the §8.9 scenario rack. -/
def scenarioDb : Db :=
  ⟨scenarioModules, scenarioConnections,
   [⟨1, 1, "TIMBRE", 0, 10⟩, ⟨2, 2, "POSITION", 0, 10⟩]⟩

/-- Validity of one synthesized connection against the jack table: the source
jack is an output belonging to the stated source module, the target jack is
an input belonging to the stated target module, and the two modules differ. -/
def ConnValid (db : List ModuleConnection) (c : Conn) : Prop :=
  (∃ sc ∈ db, sc.id = c.source_connection_id ∧ sc.module_id = c.source_module_id ∧
    sc.connection_type = "output") ∧
  (∃ tc ∈ db, tc.id = c.target_connection_id ∧ tc.module_id = c.target_module_id ∧
    tc.connection_type = "input") ∧
  c.source_module_id ≠ c.target_module_id

/-- The duplicate-detection key of the fallback pass. -/
def connTuple (c : Conn) : Nat × Nat × Nat × Nat :=
  (c.source_module_id, c.source_connection_id, c.target_module_id, c.target_connection_id)

/-- A connection produced by pairing an output-bearing module of `outM` with
a distinct input-bearing module of `inM`, as the fallback pass does. -/
def FallbackPaired (outM inM : List (Module × List ModuleConnection)) (c : Conn) : Prop :=
  ∃ sp ∈ outM, ∃ tp ∈ inM, sp.1.id ≠ tp.1.id ∧
    c.source_module_id = sp.1.id ∧ c.target_module_id = tp.1.id ∧
    (∃ sc ∈ sp.2, sc.id = c.source_connection_id) ∧
    (∃ tc ∈ tp.2, tc.id = c.target_connection_id) ∧
    c.importance = 3

/-- The `(module, output jacks)` list the fallback pass samples sources from,
for the §8.9 scenario rack. -/
def scenarioOutputs : List (Module × List ModuleConnection) :=
  [(plaits, [⟨3, 1, "output", "OUT"⟩, ⟨4, 1, "output", "AUX"⟩]),
   (clouds, [⟨6, 2, "output", "OUT"⟩])]

/-- The `(module, input jacks)` list the fallback pass samples targets from,
for the §8.9 scenario rack. -/
def scenarioInputs : List (Module × List ModuleConnection) :=
  [(plaits, [⟨1, 1, "input", "V/OCT"⟩, ⟨2, 1, "input", "TRIG"⟩]),
   (clouds, [⟨5, 2, "input", "IN"⟩])]

/-- Validity of one synthesized control setting against the control table:
the referenced control exists, belongs to the stated module, and whenever
the setting carries a numeric value and the control's range is non-degenerate
(`min_value ≤ max_value`), the value lies within the range. -/
def SettingValid (controlsDb : List ModuleControl) (s : Setting) : Prop :=
  ∃ c ∈ controlsDb, c.id = s.control_id ∧ c.module_id = s.module_id ∧
    ∀ v, s.value_numeric = some v → c.min_value ≤ c.max_value →
      c.min_value ≤ v ∧ v ≤ c.max_value

/-- A filter module used to exercise the control-setting synthesizer. -/
def ripples : Module := ⟨3, "Ripples", some "Filter"⟩

/-- A cutoff knob on the filter module, with range `[0, 10]`. -/
def cutoffControl : ModuleControl := ⟨9, 3, "CUTOFF", 0, 10⟩

end Backend

namespace Mock

/-- The module types in first-occurrence order, i.e. the key order of the
`module_types` dictionary of `_find_relevant_modules`. -/
def typesInOrder (ms : List MModule) : List String :=
  (buildBuckets mtype ms).map Prod.fst

end Mock

theorem rchoice_mem {α : Type} {l : List α} (d : α) (n : Nat) (h : l ≠ []) :
    rchoice l d n ∈ l := by
  have hlen : 0 < l.length := List.length_pos.mpr h
  have hm : n % l.length < l.length := Nat.mod_lt _ hlen
  rw [rchoice, List.getD_eq_getElem l d hm]
  exact List.getElem_mem hm

theorem foldl_max_mem (x : Nat) (xs : List Nat) : xs.foldl max x ∈ x :: xs := by
  induction xs generalizing x with
  | nil => simp [List.foldl]
  | cons y ys ih =>
    simp only [List.foldl]
    rcases List.mem_cons.mp (ih (max x y)) with h | h
    · rcases max_choice x y with hm | hm
      · exact List.mem_cons.mpr (Or.inl (h.trans hm))
      · exact List.mem_cons.mpr (Or.inr (List.mem_cons.mpr (Or.inl (h.trans hm))))
    · exact List.mem_cons.mpr (Or.inr (List.mem_cons.mpr (Or.inr h)))

theorem pymax_mem {l : List Nat} (h : l ≠ []) : pymax l ∈ l := by
  match l, h with
  | x :: xs, _ => exact foldl_max_mem x xs

theorem pymax_eq_zero {l : List Nat} (h : ∀ x ∈ l, x = 0) : pymax l = 0 := by
  cases hl : l with
  | nil => rfl
  | cons x xs =>
    have := pymax_mem (l := x :: xs) (by simp)
    rw [← hl] at *
    exact h _ (hl ▸ this)

theorem bucketVal_addBucket {α : Type} (bs : List (String × List α)) (t k : String) (a : α) :
    bucketVal (addBucket bs t a) k = bucketVal bs k ++ (if t = k then [a] else []) := by
  induction bs with
  | nil =>
    by_cases h : t = k <;> simp [addBucket, bucketVal, h]
  | cons hd tl ih =>
    obtain ⟨k', vs⟩ := hd
    rw [addBucket]
    by_cases h1 : k' = t
    · subst h1
      rw [if_pos rfl]
      by_cases h2 : k' = k
      · subst h2
        simp [bucketVal]
      · simp [bucketVal, h2]
    · rw [if_neg h1]
      by_cases h2 : k' = k
      · subst h2
        have ht : t ≠ k' := fun hh => h1 hh.symm
        simp [bucketVal, ht]
      · simp [bucketVal, h2, ih]

theorem bucketVal_foldl_addBucket {α : Type} (key : α → String) (k : String) :
    ∀ (xs : List α) (bs : List (String × List α)),
      bucketVal (xs.foldl (fun bs x => addBucket bs (key x) x) bs) k =
        bucketVal bs k ++ xs.filter (fun x => key x = k) := by
  intro xs
  induction xs with
  | nil => simp
  | cons x xs ih =>
    intro bs
    simp only [List.foldl_cons, ih, bucketVal_addBucket, List.filter_cons]
    by_cases h : key x = k <;> simp [h]

theorem bucketVal_buildBuckets {α : Type} (key : α → String) (xs : List α) (k : String) :
    bucketVal (buildBuckets key xs) k = xs.filter (fun x => key x = k) := by
  rw [buildBuckets, bucketVal_foldl_addBucket]
  rfl

theorem keys_addBucket {α : Type} (bs : List (String × List α)) (t : String) (a : α) :
    (addBucket bs t a).map Prod.fst =
      if t ∈ bs.map Prod.fst then bs.map Prod.fst else bs.map Prod.fst ++ [t] := by
  induction bs with
  | nil => simp [addBucket]
  | cons hd tl ih =>
    obtain ⟨k', vs⟩ := hd
    by_cases h : k' = t
    · subst h
      simp [addBucket]
    · have h' : t ≠ k' := fun hh => h hh.symm
      by_cases hm : t ∈ tl.map Prod.fst <;>
        simp [addBucket, h, h', hm, ih]

theorem keys_nodup_addBucket {α : Type} {bs : List (String × List α)} (t : String) (a : α)
    (h : (bs.map Prod.fst).Nodup) : ((addBucket bs t a).map Prod.fst).Nodup := by
  rw [keys_addBucket]
  by_cases hm : t ∈ bs.map Prod.fst
  · simpa [hm] using h
  · simp only [hm, if_false]
    exact List.Nodup.append h (List.nodup_singleton t) (by simpa using hm)

theorem keys_nodup_buildBuckets {α : Type} (key : α → String) (xs : List α) :
    ((buildBuckets key xs).map Prod.fst).Nodup := by
  rw [buildBuckets]
  suffices h : ∀ (xs : List α) (bs : List (String × List α)), (bs.map Prod.fst).Nodup →
      ((xs.foldl (fun bs x => addBucket bs (key x) x) bs).map Prod.fst).Nodup by
    exact h xs [] (by simp)
  intro xs
  induction xs with
  | nil => intro bs h; simpa using h
  | cons x xs ih =>
    intro bs h
    exact ih _ (keys_nodup_addBucket _ _ h)

theorem mem_keys_addBucket {α : Type} (bs : List (String × List α)) (t k : String) (a : α) :
    k ∈ (addBucket bs t a).map Prod.fst ↔ k ∈ bs.map Prod.fst ∨ k = t := by
  rw [keys_addBucket]
  by_cases hm : t ∈ bs.map Prod.fst
  · simp only [hm, if_true]
    constructor
    · exact Or.inl
    · rintro (h | h)
      · exact h
      · exact h ▸ hm
  · simp [hm]

theorem mem_keys_buildBuckets {α : Type} (key : α → String) (xs : List α) (k : String) :
    k ∈ (buildBuckets key xs).map Prod.fst ↔ ∃ x ∈ xs, key x = k := by
  rw [buildBuckets]
  suffices h : ∀ (xs : List α) (bs : List (String × List α)),
      (k ∈ (xs.foldl (fun bs x => addBucket bs (key x) x) bs).map Prod.fst ↔
        k ∈ bs.map Prod.fst ∨ ∃ x ∈ xs, key x = k) by
    rw [h xs []]
    simp
  intro xs
  induction xs with
  | nil => intro bs; simp
  | cons x xs ih =>
    intro bs
    rw [List.foldl_cons, ih, mem_keys_addBucket]
    constructor
    · rintro ((h | h) | h)
      · exact Or.inl h
      · exact Or.inr ⟨x, by simp, h.symm⟩
      · obtain ⟨y, hy, hk⟩ := h
        exact Or.inr ⟨y, by simp [hy], hk⟩
    · rintro (h | ⟨y, hy, hk⟩)
      · exact Or.inl (Or.inl h)
      · rcases List.mem_cons.mp hy with rfl | hy'
        · exact Or.inl (Or.inr hk.symm)
        · exact Or.inr ⟨y, hy', hk⟩

theorem find_eq_bucketVal {α : Type} (bs : List (String × List α)) (p : String) (acc : List α) :
    lookupExtend bs acc p = acc ++ bucketVal bs p := by
  unfold lookupExtend
  induction bs with
  | nil => simp [bucketVal]
  | cons hd tl ih =>
    obtain ⟨k', vs⟩ := hd
    by_cases h : k' = p
    · simp [List.find?_cons, h, bucketVal]
    · simp only [List.find?_cons, bucketVal]
      rw [if_neg h]
      simpa [h] using ih

theorem foldl_lookup_join {α : Type} (bs : List (String × List α)) :
    ∀ (ks : List String) (acc : List α),
      ks.foldl (lookupExtend bs) acc =
      acc ++ (ks.map (fun p => bucketVal bs p)).flatten := by
  intro ks
  induction ks with
  | nil => simp
  | cons p ks ih =>
    intro acc
    rw [List.foldl_cons, find_eq_bucketVal, ih]
    simp [List.append_assoc]

theorem foldl_filter_join {α : Type} (P : String → Bool) :
    ∀ (bs : List (String × List α)) (acc : List α),
      bs.foldl (fun acc kv => if P kv.1 then acc else acc ++ kv.2) acc =
      acc ++ ((bs.filter (fun kv => !P kv.1)).map Prod.snd).flatten := by
  intro bs
  induction bs with
  | nil => simp
  | cons hd tl ih =>
    intro acc
    rw [List.foldl_cons]
    by_cases h : P hd.1
    · rw [if_pos h, ih]
      simp [List.filter_cons, h]
    · rw [if_neg h, ih]
      simp [List.filter_cons, h, List.append_assoc]

theorem filter_entries_map_snd {α : Type} (P : String → Bool) :
    ∀ (bs : List (String × List α)), (bs.map Prod.fst).Nodup →
      ((bs.filter (fun kv => !P kv.1)).map Prod.snd) =
        ((bs.map Prod.fst).filter (fun k => !P k)).map (fun k => bucketVal bs k) := by
  intro bs
  induction bs with
  | nil => intro _; rfl
  | cons hd tl ih =>
    intro hnd
    obtain ⟨k', vs⟩ := hd
    have hk' : k' ∉ tl.map Prod.fst := (List.nodup_cons.mp hnd).1
    have htl : (tl.map Prod.fst).Nodup := (List.nodup_cons.mp hnd).2
    have hmapeq :
        ((tl.map Prod.fst).filter (fun k => !P k)).map (fun k => bucketVal ((k', vs) :: tl) k) =
          ((tl.map Prod.fst).filter (fun k => !P k)).map (fun k => bucketVal tl k) := by
      apply List.map_congr_left
      intro k hk
      have hk1 : k ∈ tl.map Prod.fst := List.mem_of_mem_filter hk
      have hne : ¬ k' = k := fun hh => hk' (hh ▸ hk1)
      simp [bucketVal, hne]
    by_cases h : P k'
    · simp only [List.filter_cons, List.map_cons]
      rw [show (!P k') = false by simp [h]]
      simp only [Bool.false_eq_true, if_false]
      rw [ih htl, ← hmapeq]
    · simp only [List.filter_cons, List.map_cons]
      rw [show (!P k') = true by simp [h]]
      simp only [if_true]
      rw [List.map_cons]
      congr 1
      · simp [bucketVal]
      · rw [ih htl, ← hmapeq]

theorem join_filter_perm {α : Type} (key : α → String) :
    ∀ (K : List String) (xs : List α), K.Nodup → (∀ x ∈ xs, key x ∈ K) →
      (K.map (fun k => xs.filter (fun x => key x = k))).flatten.Perm xs := by
  intro K
  induction K with
  | nil =>
    intro xs _ hall
    have : xs = [] := by
      cases xs with
      | nil => rfl
      | cons x xs => exact absurd (hall x (by simp)) (by simp)
    simp [this]
  | cons k K ih =>
    intro xs hnd hall
    have hkK : k ∉ K := (List.nodup_cons.mp hnd).1
    have hndK : K.Nodup := (List.nodup_cons.mp hnd).2
    have hys : ∀ x ∈ xs.filter (fun x => !(key x = k : Bool)), key x ∈ K := by
      intro x hx
      have hx1 : x ∈ xs := List.mem_of_mem_filter hx
      have hx2 : ¬ key x = k := by
        have := List.of_mem_filter hx
        simpa using this
      rcases List.mem_cons.mp (hall x hx1) with h | h
      · exact absurd h hx2
      · exact h
    have hswap : K.map (fun k' => xs.filter (fun x => key x = k')) =
        K.map (fun k' => (xs.filter (fun x => !(key x = k : Bool))).filter
          (fun x => key x = k')) := by
      apply List.map_congr_left
      intro k' hk'
      have hkk' : k ≠ k' := fun hh => hkK (hh ▸ hk')
      rw [List.filter_filter]
      apply List.filter_congr
      intro x _
      by_cases hx : key x = k'
      · have hnk : ¬ key x = k := fun hh => hkk' (hh.symm.trans hx)
        have hk'k : ¬ k' = k := fun hh => hkk' hh.symm
        simp [hx, hnk, hk'k]
      · simp [hx]
    rw [List.map_cons, List.flatten_cons, hswap]
    exact (List.Perm.append_left _ (ih _ hndK hys)).trans (List.filter_append_perm _ xs)

theorem priorityTypes_nodup (pt : String) : (Mock.priorityTypes pt).Nodup := by
  unfold Mock.priorityTypes
  split
  · next kv h =>
    have hm := List.mem_of_find?_eq_some h
    fin_cases hm <;> decide
  · decide

theorem findRelevantModules_eq (ms : List Mock.MModule) (pt : String) :
    Mock.findRelevantModules ms pt =
      ((Mock.priorityTypes pt).map
        (fun p => ms.filter (fun m => Mock.mtype m = p))).flatten ++
      (((Mock.typesInOrder ms).filter
        (fun k => !(Mock.priorityTypes pt).contains k)).map
        (fun k => ms.filter (fun m => Mock.mtype m = k))).flatten := by
  show ((Mock.priorityTypes pt).foldl (lookupExtend (buildBuckets Mock.mtype ms)) []) ++
    ((buildBuckets Mock.mtype ms).foldl
      (fun acc kv => if (Mock.priorityTypes pt).contains kv.1 then acc else acc ++ kv.2) []) = _
  rw [foldl_lookup_join, foldl_filter_join]
  simp only [List.nil_append]
  congr 1
  · congr 1
    apply List.map_congr_left
    intro p _
    exact bucketVal_buildBuckets _ _ _
  · rw [filter_entries_map_snd _ _ (keys_nodup_buildBuckets _ _)]
    congr 1
    apply List.map_congr_left
    intro k _
    exact bucketVal_buildBuckets _ _ _

theorem findRelevantModules_perm (ms : List Mock.MModule) (pt : String) :
    (Mock.findRelevantModules ms pt).Perm ms := by
  rw [findRelevantModules_eq, ← List.flatten_append, ← List.map_append]
  apply join_filter_perm Mock.mtype
  · apply List.Nodup.append (priorityTypes_nodup pt)
    · exact (keys_nodup_buildBuckets _ _).filter _
    · intro k hk1 hk2
      have h2 := List.of_mem_filter hk2
      simp at h2
      exact h2 hk1
  · intro x hx
    by_cases h : Mock.mtype x ∈ Mock.priorityTypes pt
    · exact List.mem_append.mpr (Or.inl h)
    · refine List.mem_append.mpr (Or.inr ?_)
      refine List.mem_filter.mpr ⟨?_, ?_⟩
      · exact (mem_keys_buildBuckets _ _ _).mpr ⟨x, hx, rfl⟩
      · simpa using h

/-- C4 (counterexample): the ranker does not keep the non-matching remainder
in original input order.  With modules A (type Foo), B (type Bar), C (type
Foo) — none of whose types is an ambient priority type, as the middle
conjunct certifies — the ranker returns [A, C, B], regrouping by type and
swapping B and C relative to the input [A, B, C]. -/
theorem ranker_remainder_order_counterexample :
    Mock.findRelevantModules
      [⟨10, "A", some "Foo"⟩, ⟨11, "B", some "Bar"⟩, ⟨12, "C", some "Foo"⟩] "ambient" =
      [⟨10, "A", some "Foo"⟩, ⟨12, "C", some "Foo"⟩, ⟨11, "B", some "Bar"⟩] ∧
    ([⟨10, "A", some "Foo"⟩, ⟨11, "B", some "Bar"⟩, ⟨12, "C", some "Foo"⟩] :
      List Mock.MModule).filter
        (fun m => !(Mock.priorityTypes "ambient").contains (Mock.mtype m)) =
      [⟨10, "A", some "Foo"⟩, ⟨11, "B", some "Bar"⟩, ⟨12, "C", some "Foo"⟩] ∧
    ([⟨10, "A", some "Foo"⟩, ⟨12, "C", some "Foo"⟩, ⟨11, "B", some "Bar"⟩] :
      List Mock.MModule) ≠
      [⟨10, "A", some "Foo"⟩, ⟨11, "B", some "Bar"⟩, ⟨12, "C", some "Foo"⟩] :=
  ⟨by decide, by decide, by decide⟩

/-- C4 (amended): for every module list and archetype the ranker's output is
a permutation of its input (no module dropped or duplicated), and it equals
the priority-tier buckets in priority order — each tier being the input
filtered to that type, hence in original relative order — followed by the
non-matching buckets grouped by module type in first-occurrence order (not
in global original order). -/
theorem ranker_permutation_structure (ms : List Mock.MModule) (pt : String) :
    (Mock.findRelevantModules ms pt).Perm ms ∧
    Mock.findRelevantModules ms pt =
      ((Mock.priorityTypes pt).map
        (fun p => ms.filter (fun m => Mock.mtype m = p))).flatten ++
      (((Mock.typesInOrder ms).filter
        (fun k => !(Mock.priorityTypes pt).contains k)).map
        (fun k => ms.filter (fun m => Mock.mtype m = k))).flatten :=
  ⟨findRelevantModules_perm ms pt, findRelevantModules_eq ms pt⟩

/-- C2: whenever some archetype name occurs verbatim in the lowercased
prompt, the classifier returns the first such archetype in enumeration
order — the result of `find?` over the patch-type names — leaving the
randomness oracle untouched (so no keyword scoring or random tie-break
takes part), and the returned name is itself contained in the prompt. -/
theorem classifier_exact_name_match (p : String) (o : List Nat)
    (h : ∃ n ∈ Backend.patchTypeNames, strContains (lowerStr p) n = true) :
    ∃ a, Backend.patchTypeNames.find? (fun n => strContains (lowerStr p) n) = some a ∧
      Backend.determinePatchType p o = (a, o) ∧
      strContains (lowerStr p) a = true ∧ a ∈ Backend.patchTypeNames := by
  obtain ⟨n, hn, hc⟩ := h
  cases hf : Backend.patchTypeNames.find? (fun n => strContains (lowerStr p) n) with
  | none =>
    exact absurd hc (by simpa using List.find?_eq_none.mp hf n hn)
  | some a =>
    refine ⟨a, rfl, ?_, ?_, List.mem_of_find?_eq_some hf⟩
    · rw [Backend.determinePatchType, hf]
    · exact List.find?_some hf

/-- Witness for C2 at the prompt "acid bass drone": "acid" is a bass keyword
and both "bass" and "drone" are archetype names; the first in enumeration
order, "bass", wins. -/
theorem classifier_exact_name_match_witness :
    ∃ a, Backend.patchTypeNames.find?
        (fun n => strContains (lowerStr "acid bass drone") n) = some a ∧
      Backend.determinePatchType "acid bass drone" [3] = (a, [3]) ∧
      strContains (lowerStr "acid bass drone") a = true ∧ a ∈ Backend.patchTypeNames :=
  classifier_exact_name_match "acid bass drone" [3] ⟨"bass", by decide, by decide⟩

/-- C7: when no archetype name occurs in the lowercased prompt and no
archetype keyword occurs either (so every keyword score is zero), the
classifier returns `ambient` and consumes no randomness. -/
theorem classifier_default_ambient (p : String) (o : List Nat)
    (h1 : ∀ n ∈ Backend.patchTypeNames, strContains (lowerStr p) n = false)
    (h2 : ∀ kv ∈ Backend.keywordTable, ∀ k ∈ kv.2, strContains (lowerStr p) k = false) :
    Backend.determinePatchType p o = ("ambient", o) := by
  have hf : Backend.patchTypeNames.find? (fun n => strContains (lowerStr p) n) = none :=
    List.find?_eq_none.mpr (fun n hn => by simp [h1 n hn])
  have hmax : pymax ((Backend.keywordTable.map
      (fun kv => (kv.1, (kv.2.filter (fun k => strContains (lowerStr p) k)).length))).map
      (fun c => c.2)) = 0 := by
    apply pymax_eq_zero
    intro x hx
    simp only [List.map_map, List.mem_map, Function.comp] at hx
    obtain ⟨kv, hkv, hxe⟩ := hx
    have hnil : kv.2.filter (fun k => strContains (lowerStr p) k) = [] :=
      List.filter_eq_nil_iff.mpr (fun k hk => by simp [h2 kv hkv k hk])
    rw [← hxe]
    simp [hnil]
  simp only [Backend.determinePatchType, hf, hmax]
  simp

/-- Witness for C7 at the empty prompt and at "xyz completely unrelated":
both classify to `ambient`. -/
theorem classifier_default_ambient_witness :
    Backend.determinePatchType "" [] = ("ambient", []) ∧
    Backend.determinePatchType "xyz completely unrelated" [] = ("ambient", []) :=
  ⟨classifier_default_ambient "" [] (by decide) (by decide),
   classifier_default_ambient "xyz completely unrelated" [] (by decide) (by decide)⟩

theorem pymax_filter_fst_nonempty (counts : List (String × Nat)) (hne : counts ≠ []) :
    (counts.filter (fun c => c.2 = pymax (counts.map (fun c => c.2)))).map
      (fun c => c.1) ≠ [] := by
  have hv : counts.map (fun c => c.2) ≠ [] := by
    intro hnil
    exact hne (List.map_eq_nil_iff.mp hnil)
  obtain ⟨c, hc, hce⟩ := List.mem_map.mp (pymax_mem hv)
  intro hnil
  have hcf : c ∈ counts.filter (fun c => c.2 = pymax (counts.map (fun c => c.2))) :=
    List.mem_filter.mpr ⟨hc, by simp [hce]⟩
  rw [List.map_eq_nil_iff] at hnil
  rw [hnil] at hcf
  exact (List.not_mem_nil c) hcf

theorem mem_filtered_fst {counts : List (String × Nat)} {a : String}
    {P : String × Nat → Bool} (h : a ∈ (counts.filter P).map (fun c => c.1)) :
    a ∈ counts.map (fun c => c.1) := by
  obtain ⟨c, hc, rfl⟩ := List.mem_map.mp h
  exact List.mem_map.mpr ⟨c, List.mem_of_mem_filter hc, rfl⟩

theorem determinePatchType_fst_mem (p : String) (o : List Nat) :
    (Backend.determinePatchType p o).1 ∈ Backend.patchTypeNames := by
  cases hf : Backend.patchTypeNames.find? (fun n => strContains (lowerStr p) n) with
  | some a =>
    have hm := List.mem_of_find?_eq_some hf
    simp only [Backend.determinePatchType, hf]
    exact hm
  | none =>
    simp only [Backend.determinePatchType, hf]
    split
    · next hpos =>
      dsimp only
      have hfst : (Backend.keywordTable.map
          (fun kv => (kv.1, (kv.2.filter (fun k => strContains (lowerStr p) k)).length))).map
          (fun c => c.1) = Backend.patchTypeNames := rfl
      have hne : Backend.keywordTable.map
          (fun kv => (kv.1, (kv.2.filter (fun k => strContains (lowerStr p) k)).length)) ≠ [] := by
        simp [Backend.keywordTable]
      have hmt := pymax_filter_fst_nonempty _ hne
      have hrc := rchoice_mem (l := (Backend.keywordTable.map
          (fun kv => (kv.1, (kv.2.filter (fun k => strContains (lowerStr p) k)).length))).filter
            (fun c => c.2 = pymax ((Backend.keywordTable.map
              (fun kv => (kv.1, (kv.2.filter (fun k => strContains (lowerStr p) k)).length))).map
              (fun c => c.2))) |>.map (fun c => c.1)) "ambient" (draw o).1 hmt
      rw [← hfst]
      exact mem_filtered_fst hrc
    · next hpos =>
      show ("ambient", o).1 ∈ Backend.patchTypeNames
      simp [Backend.patchTypeNames]

/-- C9: for every prompt and oracle the classifier's result is one of the
six patch-type table keys, so the `connection_patterns` and
`control_patterns` lookups on the classifier's result always succeed —
their `KeyError` branch is unreachable for classifier-produced archetypes. -/
theorem classifier_patch_type_total (p : String) (o : List Nat) :
    (Backend.determinePatchType p o).1 ∈ Backend.patchTypeNames ∧
    (Backend.connectionPatterns (Backend.determinePatchType p o).1).isSome = true ∧
    (Backend.controlPatterns (Backend.determinePatchType p o).1).isSome = true := by
  refine ⟨determinePatchType_fst_mem p o, ?_, ?_⟩ <;>
  · have hmem := determinePatchType_fst_mem p o
    revert hmem
    generalize (Backend.determinePatchType p o).1 = x
    intro hx
    fin_cases hx <;> decide

theorem mem_outputsOf {db : List Backend.ModuleConnection} {mid : Nat}
    {c : Backend.ModuleConnection} (h : c ∈ Backend.outputsOf db mid) :
    c ∈ db ∧ c.module_id = mid ∧ c.connection_type = "output" := by
  have hm := List.mem_filter.mp h
  have h2 := hm.2
  simp only [decide_eq_true_eq] at h2
  exact ⟨hm.1, h2.1, h2.2⟩

theorem mem_inputsOf {db : List Backend.ModuleConnection} {mid : Nat}
    {c : Backend.ModuleConnection} (h : c ∈ Backend.inputsOf db mid) :
    c ∈ db ∧ c.module_id = mid ∧ c.connection_type = "input" := by
  have hm := List.mem_filter.mp h
  have h2 := hm.2
  simp only [decide_eq_true_eq] at h2
  exact ⟨hm.1, h2.1, h2.2⟩

theorem processPair_sound (db : List Backend.ModuleConnection)
    (roles : List (Nat × Backend.Role)) (patchType sourceType targetType : String)
    (st : List Backend.Conn × List Nat) (p : Backend.Module × Backend.Module)
    (hacc : ∀ c ∈ st.1, Backend.ConnValid db c) :
    ∀ c ∈ (Backend.processPair db roles patchType sourceType targetType st p).1,
      Backend.ConnValid db c := by
  obtain ⟨acc, o⟩ := st
  obtain ⟨sm, tm⟩ := p
  intro c hc
  simp only [Backend.processPair] at hc
  split at hc
  · exact hacc c hc
  · next hid =>
    split at hc
    · exact hacc c hc
    · next hemp =>
      have hnes : Backend.outputsOf db sm.id ≠ [] := by
        intro hnil
        simp [hnil] at hemp
      have hnet : Backend.inputsOf db tm.id ≠ [] := by
        intro hnil
        simp [hnil] at hemp
      rcases List.mem_append.mp hc with h | h
      · exact hacc c h
      · rw [List.mem_singleton] at h
        subst h
        have hs := mem_outputsOf (rchoice_mem Backend.defaultMC (draw o).1 hnes)
        have ht := mem_inputsOf (rchoice_mem Backend.defaultMC (draw (draw o).2).1 hnet)
        refine ⟨⟨_, hs.1, rfl, hs.2.1, hs.2.2⟩, ⟨_, ht.1, rfl, ht.2.1, ht.2.2⟩, hid⟩

theorem pairs_foldl_sound (db : List Backend.ModuleConnection)
    (roles : List (Nat × Backend.Role)) (patchType sourceType targetType : String) :
    ∀ (ps : List (Backend.Module × Backend.Module)) (st : List Backend.Conn × List Nat),
      (∀ c ∈ st.1, Backend.ConnValid db c) →
      ∀ c ∈ (ps.foldl (Backend.processPair db roles patchType sourceType targetType) st).1,
        Backend.ConnValid db c := by
  intro ps
  induction ps with
  | nil => intro st hacc; exact hacc
  | cons p ps ih =>
    intro st hacc
    exact ih _ (processPair_sound db roles patchType sourceType targetType st p hacc)

theorem processPattern_sound (db : List Backend.ModuleConnection)
    (roles : List (Nat × Backend.Role)) (patchType : String)
    (buckets : List (String × List Backend.Module))
    (st : List Backend.Conn × List Nat) (pattern : String)
    (hacc : ∀ c ∈ st.1, Backend.ConnValid db c) :
    ∀ c ∈ (Backend.processPattern db roles patchType buckets st pattern).1,
      Backend.ConnValid db c := by
  intro c hc
  simp only [Backend.processPattern] at hc
  split at hc
  · exact hacc c hc
  · split at hc
    · exact hacc c hc
    · exact pairs_foldl_sound db roles patchType _ _ _ st hacc c hc

theorem patterns_foldl_sound (db : List Backend.ModuleConnection)
    (roles : List (Nat × Backend.Role)) (patchType : String)
    (buckets : List (String × List Backend.Module)) :
    ∀ (pats : List String) (st : List Backend.Conn × List Nat),
      (∀ c ∈ st.1, Backend.ConnValid db c) →
      ∀ c ∈ (pats.foldl (Backend.processPattern db roles patchType buckets) st).1,
        Backend.ConnValid db c := by
  intro pats
  induction pats with
  | nil => intro st hacc; exact hacc
  | cons pat pats ih =>
    intro st hacc
    exact ih _ (processPattern_sound db roles patchType buckets st pat hacc)

theorem fallbackLoop_sound (db : List Backend.ModuleConnection) (patchType : String)
    (outM inM : List (Backend.Module × List Backend.ModuleConnection))
    (hout : ∀ p ∈ outM, p.2 ≠ [] ∧
      ∀ c ∈ p.2, c ∈ db ∧ c.module_id = p.1.id ∧ c.connection_type = "output")
    (hin : ∀ p ∈ inM, p.2 ≠ [] ∧
      ∀ c ∈ p.2, c ∈ db ∧ c.module_id = p.1.id ∧ c.connection_type = "input") :
    ∀ (fuel : Nat) (acc : List Backend.Conn) (o : List Nat),
      (∀ c ∈ acc, Backend.ConnValid db c) →
      ∀ c ∈ (Backend.fallbackLoop patchType outM inM fuel acc o).1, Backend.ConnValid db c := by
  intro fuel
  induction fuel with
  | zero => intro acc o hacc; exact hacc
  | succ fuel ih =>
    intro acc o hacc c hc
    rw [Backend.fallbackLoop] at hc
    simp only [draw] at hc
    split at hc
    · exact hacc c hc
    · next hne =>
      have hnes : outM ≠ [] := by
        intro hnil
        simp [hnil] at hne
      have hnet : inM ≠ [] := by
        intro hnil
        simp [hnil] at hne
      have hsp := rchoice_mem (l := outM) Backend.defaultPair (o.headD 0) hnes
      have htp := rchoice_mem (l := inM) Backend.defaultPair (o.tail.headD 0) hnet
      obtain ⟨hspne, hspall⟩ := hout _ hsp
      obtain ⟨htpne, htpall⟩ := hin _ htp
      split at hc
      · exact ih _ _ hacc c hc
      · next hid =>
        split at hc
        · exact ih _ _ hacc c hc
        · refine ih _ _ ?_ c hc
          intro c' hc'
          rcases List.mem_append.mp hc' with h | h
          · exact hacc c' h
          · rw [List.mem_singleton] at h
            subst h
            have hs := hspall _ (rchoice_mem Backend.defaultMC (o.tail.tail.headD 0) hspne)
            have ht := htpall _ (rchoice_mem Backend.defaultMC (o.tail.tail.tail.headD 0) htpne)
            exact ⟨⟨_, hs.1, rfl, hs.2.1, hs.2.2⟩, ⟨_, ht.1, rfl, ht.2.1, ht.2.2⟩, hid⟩

theorem mem_output_modules {db : List Backend.ModuleConnection}
    {modules : List Backend.Module}
    {p : Backend.Module × List Backend.ModuleConnection}
    (h : p ∈ modules.filterMap (fun m =>
      let outs := Backend.outputsOf db m.id
      if outs.isEmpty then none else some (m, outs))) :
    p.2 ≠ [] ∧ ∀ c ∈ p.2, c ∈ db ∧ c.module_id = p.1.id ∧ c.connection_type = "output" := by
  obtain ⟨m, hm, hfm⟩ := List.mem_filterMap.mp h
  dsimp only at hfm
  split at hfm
  · cases hfm
  · next hne =>
    cases hfm
    refine ⟨by simpa using hne, ?_⟩
    intro c hc
    exact mem_outputsOf hc

theorem mem_input_modules {db : List Backend.ModuleConnection}
    {modules : List Backend.Module}
    {p : Backend.Module × List Backend.ModuleConnection}
    (h : p ∈ modules.filterMap (fun m =>
      let ins := Backend.inputsOf db m.id
      if ins.isEmpty then none else some (m, ins))) :
    p.2 ≠ [] ∧ ∀ c ∈ p.2, c ∈ db ∧ c.module_id = p.1.id ∧ c.connection_type = "input" := by
  obtain ⟨m, hm, hfm⟩ := List.mem_filterMap.mp h
  dsimp only at hfm
  split at hfm
  · cases hfm
  · next hne =>
    cases hfm
    refine ⟨by simpa using hne, ?_⟩
    intro c hc
    exact mem_inputsOf hc

/-- C5: every connection the synthesizer emits — by the template pass or the
fallback pass, under any roles, patch type, and randomness — has a source
jack of direction output belonging to the stated source module, a target
jack of direction input belonging to the stated target module, and distinct
source and target module ids. -/
theorem connection_validity (db : List Backend.ModuleConnection)
    (modules : List Backend.Module) (roles : List (Nat × Backend.Role))
    (patchType : String) (o : List Nat) (conns : List Backend.Conn) (o' : List Nat)
    (h : Backend.generateConnections db modules roles patchType o = some (conns, o'))
    (c : Backend.Conn) (hc : c ∈ conns) : Backend.ConnValid db c := by
  rw [Backend.generateConnections] at h
  cases hcp : Backend.connectionPatterns patchType with
  | none => rw [hcp] at h; cases h
  | some patterns =>
    rw [hcp] at h
    simp only [] at h
    have hst := patterns_foldl_sound db roles patchType
      (buildBuckets Backend.typeLower modules) patterns ([], o)
      (by intro c hc; cases hc)
    split at h
    · injection h with h1
      have h2 := congrArg Prod.fst h1
      simp only [] at h2
      rw [← h2] at hc
      exact fallbackLoop_sound db patchType _ _
        (fun p hp => mem_output_modules hp) (fun p hp => mem_input_modules hp)
        _ _ _ hst c hc
    · injection h with h1
      have h2 := congrArg Prod.fst h1
      simp only [] at h2
      rw [← h2] at hc
      exact hst c hc

/-- Witness for C5 on the §8.9 scenario rack: under draws `[0, 1, 0, 0, 6]`
the synthesizer emits exactly the Plaits/OUT → Clouds/IN connection, and the
theorem instantiates to its validity. -/
theorem connection_validity_witness :
    Backend.ConnValid Backend.scenarioConnections
      ⟨1, 3, 2, 5, "black", "Connect Plaits to Clouds for interesting ambient sounds", 3⟩ :=
  connection_validity Backend.scenarioConnections Backend.scenarioModules
    Backend.scenarioRoles "ambient" [0, 1, 0, 0, 6]
    [⟨1, 3, 2, 5, "black", "Connect Plaits to Clouds for interesting ambient sounds", 3⟩] []
    (by decide) _ (by decide)

theorem connTuple_eq_iff {c c' : Backend.Conn} :
    Backend.connTuple c = Backend.connTuple c' ↔
      (c.source_module_id = c'.source_module_id ∧
       c.source_connection_id = c'.source_connection_id ∧
       c.target_module_id = c'.target_module_id ∧
       c.target_connection_id = c'.target_connection_id) := by
  simp [Backend.connTuple, Prod.ext_iff]

theorem fallbackLoop_spec (patchType : String)
    (outM inM : List (Backend.Module × List Backend.ModuleConnection))
    (hout : ∀ p ∈ outM, p.2 ≠ []) (hin : ∀ p ∈ inM, p.2 ≠ []) :
    ∀ (fuel : Nat) (acc : List Backend.Conn) (o : List Nat),
      ∃ added, (Backend.fallbackLoop patchType outM inM fuel acc o).1 = acc ++ added ∧
        added.length ≤ fuel ∧
        (added.map Backend.connTuple).Nodup ∧
        ∀ c ∈ added, Backend.connTuple c ∉ acc.map Backend.connTuple ∧
          Backend.FallbackPaired outM inM c := by
  intro fuel
  induction fuel with
  | zero =>
    intro acc o
    exact ⟨[], by simp [Backend.fallbackLoop], by simp, by simp, by simp⟩
  | succ fuel ih =>
    intro acc o
    rw [Backend.fallbackLoop]
    split
    · exact ⟨[], by simp, by simp, by simp, by simp⟩
    · next hne =>
      simp only [draw]
      have hnes : outM ≠ [] := by
        intro hnil
        simp [hnil] at hne
      have hnet : inM ≠ [] := by
        intro hnil
        simp [hnil] at hne
      have hsp := rchoice_mem (l := outM) Backend.defaultPair (o.headD 0) hnes
      have htp := rchoice_mem (l := inM) Backend.defaultPair (o.tail.headD 0) hnet
      split
      · obtain ⟨added, h1, h2, h3, h4⟩ := ih acc o.tail.tail
        exact ⟨added, h1, Nat.le_succ_of_le h2, h3, h4⟩
      · next hid =>
        split
        · obtain ⟨added, h1, h2, h3, h4⟩ := ih acc o.tail.tail.tail.tail
          exact ⟨added, h1, Nat.le_succ_of_le h2, h3, h4⟩
        · next hdup =>
          obtain ⟨added', heq, hlen, hnd, hprops⟩ := ih
            (acc ++ [⟨(rchoice outM Backend.defaultPair (o.headD 0)).1.id,
              (rchoice (rchoice outM Backend.defaultPair (o.headD 0)).2 Backend.defaultMC
                (o.tail.tail.headD 0)).id,
              (rchoice inM Backend.defaultPair (o.tail.headD 0)).1.id,
              (rchoice (rchoice inM Backend.defaultPair (o.tail.headD 0)).2 Backend.defaultMC
                (o.tail.tail.tail.headD 0)).id,
              rchoice Backend.cableColorsList "" (o.tail.tail.tail.tail.headD 0),
              "Connect " ++ (rchoice outM Backend.defaultPair (o.headD 0)).1.name ++ " to " ++
                (rchoice inM Backend.defaultPair (o.tail.headD 0)).1.name ++
                " for interesting " ++ patchType ++ " sounds", 3⟩])
            o.tail.tail.tail.tail.tail
          refine ⟨(⟨(rchoice outM Backend.defaultPair (o.headD 0)).1.id,
              (rchoice (rchoice outM Backend.defaultPair (o.headD 0)).2 Backend.defaultMC
                (o.tail.tail.headD 0)).id,
              (rchoice inM Backend.defaultPair (o.tail.headD 0)).1.id,
              (rchoice (rchoice inM Backend.defaultPair (o.tail.headD 0)).2 Backend.defaultMC
                (o.tail.tail.tail.headD 0)).id,
              rchoice Backend.cableColorsList "" (o.tail.tail.tail.tail.headD 0),
              "Connect " ++ (rchoice outM Backend.defaultPair (o.headD 0)).1.name ++ " to " ++
                (rchoice inM Backend.defaultPair (o.tail.headD 0)).1.name ++
                " for interesting " ++ patchType ++ " sounds", 3⟩ : Backend.Conn) :: added', ?_, ?_, ?_, ?_⟩
          · rw [heq, List.append_assoc]
            rfl
          · simpa using Nat.succ_le_succ hlen
          · rw [List.map_cons, List.nodup_cons]
            refine ⟨?_, hnd⟩
            intro hmem
            obtain ⟨c', hc', hce⟩ := List.mem_map.mp hmem
            have := (hprops c' hc').1
            apply this
            rw [List.map_append]
            refine List.mem_append.mpr (Or.inr ?_)
            simp [hce]
          · intro c hc
            rcases List.mem_cons.mp hc with rfl | hc'
            · constructor
              · intro hmem
                obtain ⟨c', hc', hce⟩ := List.mem_map.mp hmem
                have hfalse : acc.any (fun c =>
                    c.source_module_id = (rchoice outM Backend.defaultPair (o.headD 0)).1.id ∧
                    c.source_connection_id =
                      (rchoice (rchoice outM Backend.defaultPair (o.headD 0)).2 Backend.defaultMC
                        (o.tail.tail.headD 0)).id ∧
                    c.target_module_id = (rchoice inM Backend.defaultPair (o.tail.headD 0)).1.id ∧
                    c.target_connection_id =
                      (rchoice (rchoice inM Backend.defaultPair (o.tail.headD 0)).2 Backend.defaultMC
                        (o.tail.tail.tail.headD 0)).id) = true := by
                  apply List.any_eq_true.mpr
                  refine ⟨c', hc', ?_⟩
                  have := connTuple_eq_iff.mp hce
                  simpa using this
                exact hdup hfalse
              · refine ⟨_, hsp, _, htp, ?_, rfl, rfl, ?_, ?_, rfl⟩
                · exact hid
                · exact ⟨_, rchoice_mem Backend.defaultMC (o.tail.tail.headD 0) (hout _ hsp), rfl⟩
                · exact ⟨_, rchoice_mem Backend.defaultMC (o.tail.tail.tail.headD 0) (hin _ htp), rfl⟩
            · have hp := hprops c hc'
              refine ⟨?_, hp.2⟩
              intro hmem
              apply hp.1
              rw [List.map_append]
              exact List.mem_append.mpr (Or.inl hmem)

/-- C3 (amended): the fallback pass makes exactly `min 5 (|outputs| * |inputs|)`
random attempts, so it adds at most that many connections — possibly fewer,
even zero, since attempts hitting the same module on both sides or a
duplicate (source-module, source-connection, target-module,
target-connection) tuple add nothing; every added connection pairs an
output-bearing module with a different input-bearing module, and no added
connection duplicates an already-present tuple. -/
theorem fallback_pass_bounded (patchType : String)
    (outM inM : List (Backend.Module × List Backend.ModuleConnection))
    (acc : List Backend.Conn) (o : List Nat)
    (hout : ∀ p ∈ outM, p.2 ≠ []) (hin : ∀ p ∈ inM, p.2 ≠ []) :
    ∃ added,
      (Backend.fallbackLoop patchType outM inM
        (min 5 (outM.length * inM.length)) acc o).1 = acc ++ added ∧
      added.length ≤ min 5 (outM.length * inM.length) ∧
      (added.map Backend.connTuple).Nodup ∧
      ∀ c ∈ added, Backend.connTuple c ∉ acc.map Backend.connTuple ∧
        Backend.FallbackPaired outM inM c :=
  fallbackLoop_spec patchType outM inM hout hin _ acc o

/-- Witness for C3 on the §8.9 scenario jack lists: both hypotheses (every
sampled module really has jacks on the relevant side) hold by computation. -/
theorem fallback_pass_bounded_witness :
    ∃ added,
      (Backend.fallbackLoop "ambient" Backend.scenarioOutputs Backend.scenarioInputs
        (min 5 (Backend.scenarioOutputs.length * Backend.scenarioInputs.length)) [] []).1 =
        [] ++ added ∧
      added.length ≤ min 5 (Backend.scenarioOutputs.length * Backend.scenarioInputs.length) ∧
      (added.map Backend.connTuple).Nodup ∧
      ∀ c ∈ added, Backend.connTuple c ∉ ([] : List Backend.Conn).map Backend.connTuple ∧
        Backend.FallbackPaired Backend.scenarioOutputs Backend.scenarioInputs c :=
  fallback_pass_bounded "ambient" Backend.scenarioOutputs Backend.scenarioInputs [] []
    (by decide) (by decide)

/-- C3 (counterexample): the fallback pass does not run "until 5 new
connections are added or the output × input product is exhausted".  On the
§8.9 scenario (product 4, so min 5 4 = 4 attempts) with all-zero draws every
attempt picks Plaits as both source and target and is skipped, so the pass
terminates having added 0 connections even though an addable non-duplicate
pair (Plaits with output OUT, Clouds with input IN, distinct ids, tuple not
present) remains, and 0 is not 5. -/
theorem fallback_pass_stop_counterexample :
    (Backend.fallbackLoop "ambient" Backend.scenarioOutputs Backend.scenarioInputs
      (min 5 (Backend.scenarioOutputs.length * Backend.scenarioInputs.length)) [] []) =
      ([], []) ∧
    (0 : Nat) ≠ 5 ∧
    Backend.plaits.id ≠ Backend.clouds.id ∧
    (Backend.plaits, [⟨3, 1, "output", "OUT"⟩, ⟨4, 1, "output", "AUX"⟩]) ∈
      Backend.scenarioOutputs ∧
    (Backend.clouds, [⟨5, 2, "input", "IN"⟩]) ∈ Backend.scenarioInputs ∧
    Backend.connTuple ⟨1, 3, 2, 5, "", "", 3⟩ ∉
      ([] : List Backend.Conn).map Backend.connTuple :=
  ⟨by decide, by decide, by decide, by decide, by decide, by decide⟩

theorem range_point_bound (a b f : ℚ) (hab : a ≤ b) (h0 : 0 ≤ f) (h1 : f ≤ 1) :
    a ≤ a + (b - a) * f ∧ a + (b - a) * f ≤ b := by
  constructor <;> nlinarith

theorem valueNumericText_bound (control : Backend.ModuleControl) (value : String) (v : ℚ)
    (hv : (Backend.valueNumericText control value).1 = some v)
    (hab : control.min_value ≤ control.max_value) :
    control.min_value ≤ v ∧ v ≤ control.max_value := by
  rw [Backend.valueNumericText] at hv
  split_ifs at hv <;>
    first
      | exact Option.noConfusion hv
      | (rw [← Option.some.inj hv]
         exact range_point_bound _ _ _ hab (by norm_num) (by norm_num))

theorem settingFor_sound (patchType : String) (imp : Nat) (m : Backend.Module)
    (pattern : List (String × String)) (control : Backend.ModuleControl)
    (s : Backend.Setting)
    (h : Backend.settingFor patchType imp m pattern control = some s) :
    s.module_id = m.id ∧ s.control_id = control.id ∧
      ∀ v, s.value_numeric = some v →
        control.min_value ≤ control.max_value →
        control.min_value ≤ v ∧ v ≤ control.max_value := by
  rw [Backend.settingFor] at h
  split at h
  · cases h
  · cases h
    refine ⟨rfl, rfl, ?_⟩
    intro v hv hab
    exact valueNumericText_bound control _ v hv hab

theorem inner_controls_sound (patchType : String) (imp : Nat) (m : Backend.Module)
    (pattern : List (String × String)) (controlsDb : List Backend.ModuleControl) :
    ∀ (controls : List Backend.ModuleControl) (acc : List Backend.Setting),
      (∀ c ∈ controls, c ∈ controlsDb ∧ c.module_id = m.id) →
      (∀ s ∈ acc, Backend.SettingValid controlsDb s) →
      ∀ s ∈ controls.foldl (fun acc2 control =>
          match Backend.settingFor patchType imp m pattern control with
          | none => acc2
          | some s => acc2 ++ [s]) acc,
        Backend.SettingValid controlsDb s := by
  intro controls
  induction controls with
  | nil => intro acc _ hacc; exact hacc
  | cons control controls ih =>
    intro acc hcs hacc
    rw [List.foldl_cons]
    apply ih _ (fun c hc => hcs c (List.mem_cons_of_mem _ hc))
    cases hsf : Backend.settingFor patchType imp m pattern control with
    | none => simpa [hsf] using hacc
    | some s0 =>
      simp only [hsf]
      intro s hs
      rcases List.mem_append.mp hs with h | h
      · exact hacc s h
      · rw [List.mem_singleton] at h
        subst h
        obtain ⟨h1, h2, h3⟩ := settingFor_sound patchType imp m pattern control _ hsf
        obtain ⟨hdb, hcid⟩ := hcs control (List.mem_cons_self _ _)
        exact ⟨control, hdb, h2.symm, by rw [hcid, h1], h3⟩

theorem modules_foldl_sound (patchType : String) (roles : List (Nat × Backend.Role))
    (controlsDb : List Backend.ModuleControl)
    (cps : List (String × List (String × String))) :
    ∀ (modules : List Backend.Module) (acc : List Backend.Setting),
      (∀ s ∈ acc, Backend.SettingValid controlsDb s) →
      ∀ s ∈ modules.foldl
        (fun acc m =>
          let moduleTypeLower := Backend.typeLower m
          match cps.find? (fun kv => strContains moduleTypeLower kv.1) with
          | none => acc
          | some kv =>
            let controls := controlsDb.filter (fun c => c.module_id = m.id)
            if controls.isEmpty then acc
            else
              controls.foldl
                (fun acc2 control =>
                  match Backend.settingFor patchType (Backend.roleImp roles m.id) m kv.2 control with
                  | none => acc2
                  | some s => acc2 ++ [s])
                acc)
        acc,
      Backend.SettingValid controlsDb s := by
  intro modules
  induction modules with
  | nil => intro acc hacc; exact hacc
  | cons m modules ih =>
    intro acc hacc
    rw [List.foldl_cons]
    apply ih
    cases hf : cps.find? (fun kv => strContains (Backend.typeLower m) kv.1) with
    | none => simpa [hf] using hacc
    | some kv =>
      simp only [hf]
      split
      · exact hacc
      · apply inner_controls_sound patchType (Backend.roleImp roles m.id) m kv.2 controlsDb
        · intro c hc
          have hm := List.mem_filter.mp hc
          refine ⟨hm.1, by simpa using hm.2⟩
        · exact hacc

/-- C8: every control setting the synthesizer emits references an existing
control of the stated module, and whenever it carries a numeric value and
the control's range satisfies `min_value ≤ max_value`, the value lies in
`[min_value, max_value]` — each qualitative label maps to a fixed fraction
of the range (very low 0.10, low 0.25, medium 0.50, high 0.75, fast 0.80,
very high 0.90, default 0.50), all of which lie in `[0, 1]`. -/
theorem control_value_clamping (controlsDb : List Backend.ModuleControl)
    (modules : List Backend.Module) (roles : List (Nat × Backend.Role))
    (patchType : String) (settings : List Backend.Setting)
    (h : Backend.generateControlSettings controlsDb modules roles patchType = some settings)
    (s : Backend.Setting) (hs : s ∈ settings) : Backend.SettingValid controlsDb s := by
  rw [Backend.generateControlSettings] at h
  cases hcp : Backend.controlPatterns patchType with
  | none => rw [hcp] at h; cases h
  | some cps =>
    rw [hcp] at h
    simp only [] at h
    injection h with h1
    rw [← h1] at hs
    exact modules_foldl_sound patchType roles controlsDb cps modules []
      (by intro s hs0; cases hs0) s hs

/-- Witness for C8: an ambient run over a Filter module with a CUTOFF knob
ranging over `[0, 10]` emits exactly one setting (the "low" fraction of the
range), and the theorem instantiates to its validity. -/
theorem control_value_clamping_witness :
    Backend.SettingValid [Backend.cutoffControl]
      ⟨3, 9, (Backend.valueNumericText Backend.cutoffControl "low").1,
        (Backend.valueNumericText Backend.cutoffControl "low").2,
        "Set CUTOFF low for a dark, filtered sound", 3⟩ :=
  control_value_clamping [Backend.cutoffControl] [Backend.ripples] [] "ambient"
    [⟨3, 9, (Backend.valueNumericText Backend.cutoffControl "low").1,
      (Backend.valueNumericText Backend.cutoffControl "low").2,
      "Set CUTOFF low for a dark, filtered sound", 3⟩]
    rfl _ (List.mem_singleton.mpr rfl)

/-- C6: when no supplied module reference resolves to a module, generate_patch
fails with the input error immediately and the committed write set is empty:
no PatchIdea, PatchModule, PatchConnection, or PatchControlSetting record is
created before the error propagates. -/
theorem empty_modules_error (env : Backend.Db) (newId : Nat)
    (refs : List Backend.ModuleRef) (prompt : String) (o : List Nat)
    (h : Backend.resolveModules env refs = []) :
    Backend.generatePatch env newId refs prompt o =
      (Backend.noWrites, Except.error "No valid modules provided") := by
  rw [Backend.generatePatch, h]
  simp

/-- Witness for C6: resolving the nonexistent module id 99 against the
scenario database yields no modules, and generation returns the error with
an empty write set. -/
theorem empty_modules_error_witness :
    Backend.generatePatch Backend.scenarioDb 7 [.byId 99] "ambient texture" [] =
      (Backend.noWrites, Except.error "No valid modules provided") :=
  empty_modules_error Backend.scenarioDb 7 [.byId 99] "ambient texture" [] (by decide)

/-- C10: every successful generate_patch call commits exactly one PatchIdea
record, whose complexity is `2 + draw % 4` — always between 2 and 5, never 1
— and the entry point takes no complexity argument, so a caller cannot
request one. -/
theorem generated_complexity_range (env : Backend.Db) (newId : Nat)
    (refs : List Backend.ModuleRef) (prompt : String) (o : List Nat)
    (created : Backend.Created) (u : Unit)
    (h : Backend.generatePatch env newId refs prompt o = (created, Except.ok u)) :
    ∃ c, created.ideas.map (fun i => i.complexity) = [c] ∧ 2 ≤ c ∧ c ≤ 5 := by
  rw [Backend.generatePatch] at h
  split at h
  · injection h with h1 h2
    cases h2
  · simp only [draw] at h
    split at h
    · injection h with h1 h2
      cases h2
    · split at h
      · injection h with h1 h2
        cases h2
      · injection h with h1 h2
        rw [← h1]
        refine ⟨_, rfl, Nat.le_add_right 2 _, ?_⟩
        dsimp only
        omega

/-- Witness for C10: a successful scenario run commits one idea with
complexity in `[2, 5]` (the all-zero draw stream yields complexity 2). -/
theorem generated_complexity_range_witness :
    ∃ c, ((Backend.generatePatch Backend.scenarioDb 7 [.byId 1, .byId 2]
        "ambient texture" []).1.ideas.map (fun i => i.complexity)) = [c] ∧
      2 ≤ c ∧ c ≤ 5 :=
  generated_complexity_range Backend.scenarioDb 7 [.byId 1, .byId 2] "ambient texture" []
    (Backend.generatePatch Backend.scenarioDb 7 [.byId 1, .byId 2] "ambient texture" []).1 ()
    (by decide)

/-- C1 (counterexample): on exactly the §8.9 scenario rack — Plaits (VCO,
outputs OUT and AUX, inputs V/OCT and TRIG) and Clouds (Effect, input IN,
output OUT) — with prompt "ambient texture", classification does yield
ambient, but no ambient wiring-template token is a substring of the types
"vco" or "effect", so the template pass emits nothing and all connections
come from the random fallback pass; under the all-zero draw stream every
fallback attempt pairs Plaits with itself and the synthesizer emits no
connection at all, so no Plaits/OUT → Clouds/IN black cable is emitted. -/
theorem end_to_end_scenario_counterexample :
    Backend.determinePatchType "ambient texture" [] = ("ambient", []) ∧
    Backend.generateConnections Backend.scenarioConnections Backend.scenarioModules
      Backend.scenarioRoles "ambient" [] = some ([], []) :=
  ⟨by decide, by decide⟩

/-- C1 (amended): classification of "ambient texture" yields ambient under
every draw stream (the archetype name matches, consuming no randomness), and
there exists a draw stream — `[0, 1, 0, 0, 6]` — under which the fallback
pass emits exactly one connection from Plaits/OUT (jack 3) to Clouds/IN
(jack 5) whose cable color is "black"; the emission and the color are
outcomes of random draws (color index 6 in the palette), not guaranteed by
the template pass or the audio/out color convention, which is never reached
for these modules. -/
theorem end_to_end_scenario_amended :
    (∀ o : List Nat, Backend.determinePatchType "ambient texture" o = ("ambient", o)) ∧
    Backend.generateConnections Backend.scenarioConnections Backend.scenarioModules
      Backend.scenarioRoles "ambient" [0, 1, 0, 0, 6] =
      some ([⟨1, 3, 2, 5, "black",
        "Connect Plaits to Clouds for interesting ambient sounds", 3⟩], []) :=
  ⟨fun o => rfl, by decide⟩
